import Mathlib

/-!
# OpenREALM: tracking adapter (`open_vslam.cpp`) and raster warper (`gdal_warper.cpp`)

A shallow embedding of the two source files and the properties their
specification states about them.

Conventions of the embedding.

* A `cv::Mat` that carries a pose is a `4 × 4` (or, with the homogeneous row
  removed, a `3 × 4`) matrix over `ℚ`, in exact arithmetic; the empty
  `cv::Mat` is `none`. Images, point arrays and the pose guess are values of
  the record `CvMat`.
* The `double` values of `warpMap` are the values of a type `D` that comes
  with the operations of `DoubleOps`, of which no law is asked: they may round
  as the machine does. The rationals with their exact operations are one such
  type.
* The `int` and `unsigned int` values are `Int` and `Nat` (in these files they
  are compared, stored and converted to `double`, never added or multiplied as
  machine integers).
* The tracking library (OpenVSLAM), the raster library (GDAL) and OpenCV are
  external: what they return during a call is a parameter of the embedded
  function, and the calls made are recorded in a log.
* Where the C++ code has undefined behaviour (`back()` of an empty vector, a
  function of non-void type that ends without `return`, a read or write out of
  bounds) the embedded call ends there, with the place as its result; it
  produces no value.
* The content of a matrix that is allocated and never written is a parameter.
-/

namespace realm

/-! ## Pose matrices -/

/-- A `4 × 4` matrix of doubles, over exact arithmetic. -/
abbrev Mat44 := Matrix (Fin 4) (Fin 4) ℚ

/-- A `3 × 4` pose matrix (a `4 × 4` pose without its last row). -/
abbrev Mat34 := Matrix (Fin 3) (Fin 4) ℚ

/-- A `3 × 3` rotation block. -/
abbrev Mat33 := Matrix (Fin 3) (Fin 3) ℚ

/-- The expression `pose.rowRange(0, 3).colRange(0, 3)`. -/
def rotationBlock (pose : Mat44) : Mat33 :=
  fun i j => pose (Fin.castSucc i) (Fin.castSucc j)

/-- The expression `pose.rowRange(0, 3).col(3)`. -/
def translationCol (pose : Mat44) : Fin 3 → ℚ :=
  fun i => pose (Fin.castSucc i) 3

/-- The statement `src.copyTo(dst.rowRange(0, 3).colRange(0, 3))`. -/
def copyToRotation (src : Mat33) (dst : Mat44) : Mat44 :=
  fun i j =>
    if h : i.val < 3 ∧ j.val < 3 then src ⟨i.val, h.1⟩ ⟨j.val, h.2⟩ else dst i j

/-- The statement `src.copyTo(dst.rowRange(0, 3).col(3))`. -/
def copyToTranslation (src : Fin 3 → ℚ) (dst : Mat44) : Mat44 :=
  fun i j =>
    if h : i.val < 3 ∧ j.val = 3 then src ⟨i.val, h.1⟩ else dst i j

/-- The method `OpenVslam::invertPose`:
```
cv::Mat pose_inv = cv::Mat::eye(4, 4, pose.type());
cv::Mat R_t = (pose.rowRange(0, 3).colRange(0, 3)).t();
cv::Mat t = -R_t*pose.rowRange(0, 3).col(3);
R_t.copyTo(pose_inv.rowRange(0, 3).colRange(0, 3));
t.copyTo(pose_inv.rowRange(0, 3).col(3));
return pose_inv;
``` -/
def invertPose (pose : Mat44) : Mat44 :=
  let pose_inv : Mat44 := 1
  let R_t : Mat33 := (rotationBlock pose).transpose
  let t : Fin 3 → ℚ := (-R_t).mulVec (translationCol pose)
  let pose_inv := copyToRotation R_t pose_inv
  let pose_inv := copyToTranslation t pose_inv
  pose_inv

/-- The method `OpenVslam::convertToCv`:
```
cv::Mat mat_cv(4, 4, CV_64F);
return mat_cv;
```
The matrix is allocated `4 × 4` and returned without being written, so its
entries are whatever the allocation holds: `mat_cv` is that content. The
argument `mat_eigen` is never read; its type `openvslam::Mat44_t` belongs to
the tracking library and is the parameter `N`. -/
def convertToCv {N : Type} (mat_cv : Mat44) (_mat_eigen : N) : Mat44 :=
  mat_cv

/-- The statement `T_c2w.pop_back()`: the last row is removed. -/
def pop_back (m : Mat44) : Mat34 :=
  fun i j => m (Fin.castSucc i) j

/-- A valid rigid transform: orthonormal rotation block and last row
`(0, 0, 0, 1)`. -/
def IsRigid (P : Mat44) : Prop :=
  (rotationBlock P).transpose * rotationBlock P = 1 ∧
    P 3 0 = 0 ∧ P 3 1 = 0 ∧ P 3 2 = 0 ∧ P 3 3 = 1

/-- A quarter turn about the third axis followed by the translation
`(1, 2, 3)`. -/
def quarterTurn : Mat44 :=
  !![0, -1, 0, 1;
     1, 0, 0, 2;
     0, 0, 1, 3;
     0, 0, 0, 1]

/-! ## Images, frames and the tracking adapter -/

/-- A `cv::Mat` used as an image or numeric array: its size, its number of
channels and its entries in row-major order, the channels of one element next
to each other. -/
structure CvMat where
  rows : Int
  cols : Int
  channels : Int
  data : List ℚ

/-- The method `cv::Mat::empty()`: no data or no element. -/
def CvMat.empty (m : CvMat) : Bool :=
  m.data.isEmpty || m.rows * m.cols == 0

/-- The default-constructed `cv::Mat`. -/
def CvMat.default : CvMat :=
  { rows := 0, cols := 0, channels := 1, data := [] }

/-- Modelled from the spec: the type `Frame`, declared outside the two source
files (spec, data model: image buffer, acquisition timestamp, optional resize
factor, camera-to-world pose `3 × 4` which may be absent, sparse surface-point
set which may be empty). The setters `setImageResizeFactor`, `setVisualPose`
and `setSurfacePoints` write the fields `resize_factor`, `visual_pose` and
`surface_points`. -/
structure Frame where
  image : CvMat
  timestamp : Nat
  resize_factor : ℚ
  visual_pose : Option Mat34
  surface_points : CvMat

/-- A landmark of the tracking library: its position in the world. -/
structure landmark where
  pos_in_world : ℚ × ℚ × ℚ

/-- A keyframe of the tracking library: its landmarks. -/
structure keyframe where
  landmarks : List landmark

/-- The enumeration `VisualSlamIF::State`. -/
inductive State where
  | LOST
  | INITIALIZED
  | KEYFRAME_INSERT
  | FRAME_INSERT
deriving DecidableEq, Repr

/-- The fields of `OpenVslam` that `track` reads or writes. The pointer
`_last_keyframe` is `none` when it does not point to a keyframe. -/
structure OpenVslam where
  _nrof_keyframes : Nat
  _resizing : ℚ
  _last_drawn_frame : CvMat
  _last_keyframe : Option keyframe

/-- The constructor `OpenVslam::OpenVslam`: `_nrof_keyframes(0)` and
`_resizing` read from the settings. -/
def OpenVslam.construct (resizing : ℚ) : OpenVslam :=
  { _nrof_keyframes := 0, _resizing := resizing, _last_drawn_frame := CvMat.default,
    _last_keyframe := none }

/-- What the tracking library answers during one call of `track`: the native
pose returned by `feed_monocular_frame` (of the library type `N`), the image
returned by `draw_frame`, and the vector filled and the count returned by
`get_keyframes`. -/
structure VslamReplies (N : Type) where
  feed_monocular_frame : N
  draw_frame : CvMat
  keyframes : List keyframe
  get_keyframes : Nat

/-- A call into the tracking library. The timestamp of `feed_monocular_frame`
is that of the frame, which the call site scales by the constant `10e-9`. -/
inductive VslamCall where
  | feed_monocular_frame (image : CvMat) (resize_factor : ℚ) (timestamp : Nat)
  | draw_frame
  | get_keyframes
  | get_landmarks

/-- The places where `track` has undefined behaviour in C++: `back()` of an
empty vector (line 114), the use of `_last_keyframe` while it points to no
keyframe (line 152), and the end of `getTrackedMapPoints`, a function of
return type `cv::Mat` that has no `return` statement (line 163). The program
has no result there. -/
inductive TrackFault where
  | back_of_empty_vector
  | last_keyframe_without_target
  | missing_return
deriving DecidableEq, Repr

/-- The method `OpenVslam::getTrackedMapPoints`: the landmarks of the last
keyframe are copied into the local `points` (one row of three coordinates per
landmark), and control reaches the closing brace without a `return`: the call
has no value. -/
def getTrackedMapPoints (self : OpenVslam) : Except TrackFault CvMat :=
  match self._last_keyframe with
  | none => Except.error TrackFault.last_keyframe_without_target
  | some kf =>
    let landmarks : List landmark := kf.landmarks
    let _points : CvMat :=
      { rows := landmarks.length, cols := 3, channels := 1,
        data := landmarks.flatMap
          (fun l => [l.pos_in_world.1, l.pos_in_world.2.1, l.pos_in_world.2.2]) }
    Except.error TrackFault.missing_return

/-- Lines 120 to 134 of `track` (`Check current state of the slam`): from the
counter `_nrof_keyframes` and the count `current_nrof_keyframes`, the state
returned and the counter afterwards. -/
def checkState (_nrof_keyframes current_nrof_keyframes : Nat) : State × Nat :=
  if _nrof_keyframes = 0 ∧ current_nrof_keyframes > 0 then
    (State.INITIALIZED, current_nrof_keyframes)
  else if current_nrof_keyframes ≠ _nrof_keyframes then
    (State.KEYFRAME_INSERT, current_nrof_keyframes)
  else
    (State.FRAME_INSERT, _nrof_keyframes)

/-- What a call of `track` leaves behind: the state returned, or the place
where the call ran into undefined behaviour; the adapter and the frame as they
are at the return or at that place; and the calls made into the tracking
library, in order. -/
structure TrackOutcome where
  result : Except TrackFault State
  self : OpenVslam
  frame : Frame
  calls : List VslamCall

/-- The method `OpenVslam::track`. The local `T_w2c` is `none` while it is the
empty `cv::Mat`. The native pose has the library type `N`, which `track` only
hands to `convertToCv`; `mat_cv` is the content of the matrix `convertToCv`
allocates. The mutexes are not modelled (one thread). The count and the vector
of `get_keyframes` are two answers of the library. -/
def track {N : Type} (self : OpenVslam) (lib : VslamReplies N) (mat_cv : Mat44)
    (frame : Frame) (T_c2w_initial : CvMat) : TrackOutcome :=
  -- frame->setImageResizeFactor(_resizing);
  let frame := { frame with resize_factor := self._resizing }
  -- cv::Mat T_w2c; if (T_c2w_initial.empty()) ... else prior not yet implemented
  let fed : Option Mat44 × List VslamCall :=
    if T_c2w_initial.empty then
      let T_w2c_eigen := lib.feed_monocular_frame
      (some (convertToCv mat_cv T_w2c_eigen),
        [VslamCall.feed_monocular_frame frame.image frame.resize_factor frame.timestamp])
    else
      (none, [])
  let T_w2c := fed.1
  -- _last_drawn_frame = _frame_publisher->draw_frame();
  let self := { self with _last_drawn_frame := lib.draw_frame }
  let calls := fed.2 ++ [VslamCall.draw_frame]
  -- if (!T_w2c.empty())
  match T_w2c with
  | some T_w2c =>
    let T_c2w := invertPose T_w2c
    let T_c2w := pop_back T_c2w
    let frame := { frame with visual_pose := some T_c2w }
    let keyframes := lib.keyframes
    let current_nrof_keyframes := lib.get_keyframes
    let calls := calls ++ [VslamCall.get_keyframes]
    -- _last_keyframe = keyframes.back();
    match keyframes.getLast? with
    | none =>
      { result := Except.error TrackFault.back_of_empty_vector, self := self, frame := frame,
        calls := calls }
    | some kf =>
      let self := { self with _last_keyframe := some kf }
      -- cv::Mat surface_pts = getTrackedMapPoints();
      let calls := calls ++ [VslamCall.get_landmarks]
      match getTrackedMapPoints self with
      | Except.error fault =>
        { result := Except.error fault, self := self, frame := frame, calls := calls }
      | Except.ok surface_pts =>
        let frame := { frame with surface_points := surface_pts }
        let checked := checkState self._nrof_keyframes current_nrof_keyframes
        { result := Except.ok checked.1,
          self := { self with _nrof_keyframes := checked.2 },
          frame := frame, calls := calls }
  | none =>
    { result := Except.ok State.LOST, self := self, frame := frame, calls := calls }

/-! ## The raster warper -/

/-- The arithmetic of the type `double` as far as `warpMap` uses it: the
conversion from `int`, the product and the difference. No law is asked of
them, so they may round as the machine does. -/
class DoubleOps (D : Type) where
  ofInt : Int → D
  mul : D → D → D
  sub : D → D → D

/-- Exact arithmetic on the rationals. -/
instance exactDouble : DoubleOps ℚ where
  ofInt := fun n => (n : ℚ)
  mul := fun a b => a * b
  sub := fun a b => a - b

/-- A `cv::Rect2d`. -/
structure Rect2d (D : Type) where
  x : D
  y : D
  width : D
  height : D

/-- Modelled from the spec: the type `CvGridMap`, declared outside the two
source files (spec, data model: a region of interest, a uniform resolution and
named data layers; spec 4.6: a grid map is constructed with the computed
region of interest and resolution and a single `"data"` layer). -/
structure CvGridMap (D : Type) where
  roi : Rect2d D
  resolution : D
  layers : List (String × CvMat)

/-- Modelled from the spec: the constructor `CvGridMap(roi, resolution)`, a
map with that geometry and no layer (step 5 of `warpMap` constructs the output
this way and then adds its single layer `"data"`). -/
def CvGridMap.construct {D : Type} (roi : Rect2d D) (resolution : D) : CvGridMap D :=
  { roi := roi, resolution := resolution, layers := [] }

/-- Modelled from the spec: the method `CvGridMap::add(name, data)`. -/
def CvGridMap.add {D : Type} (map : CvGridMap D) (name : String) (data : CvMat) :
    CvGridMap D :=
  { map with layers := map.layers ++ [(name, data)] }

/-- Modelled from the spec: the method `CvGridMap::getAllLayerNames()`. -/
def CvGridMap.getAllLayerNames {D : Type} (map : CvGridMap D) : List String :=
  map.layers.map Prod.fst

/-- Modelled from the spec: the operator `CvGridMap::operator[](name)`, the
data of the layer called `name`, if there is one. -/
def CvGridMap.layer {D : Type} (map : CvGridMap D) (name : String) : Option CvMat :=
  (map.layers.find? (fun l => l.1 == name)).map Prod.snd

/-- The field of `GdalWarper` that `warpMap` reads. -/
structure GdalWarper where
  _epsg_target : Int

/-- The constructor `GdalWarper::GdalWarper`: `_epsg_target(0)`. -/
def GdalWarper.construct : GdalWarper :=
  { _epsg_target := 0 }

/-- The method `GdalWarper::setTargetEPSG`. -/
def GdalWarper.setTargetEPSG (_self : GdalWarper) (epsg_code : Int) : GdalWarper :=
  { _epsg_target := epsg_code }

/-- How a call of `warpMap` can end without a grid map. Two exceptions are
thrown by `warpMap` itself: `std::runtime_error`, which the spec calls
`InvalidConfiguration`, and `std::invalid_argument`, which the spec calls
`UnsupportedInput`. The others are places where the call goes wrong: the read
of `layer_names[0]` in an empty vector (undefined behaviour), a layer that is
not in the map, a condition of a `CPLAssert` line that does not hold (the call
goes on with a handle or a result that is not valid), a `cv::Mat` of negative
size, a `RasterIO` read that writes more bytes than the buffer `bckVar` has
(undefined behaviour), and `cv::merge` called on no matrix. -/
inductive WarpError where
  | runtime_error (what : String)
  | invalid_argument (what : String)
  | layer_names_out_of_bounds
  | no_such_layer
  | assertion_violated
  | negative_size
  | RasterIO_overrun
  | merge_of_nothing
deriving DecidableEq, Repr

/-- The pixel types of a raster band (`GDALDataType`, without the complex
ones). -/
inductive GDALDataType where
  | GDT_Byte
  | GDT_UInt16
  | GDT_Int16
  | GDT_UInt32
  | GDT_Int32
  | GDT_Float32
  | GDT_Float64
deriving DecidableEq, Repr

/-- The function `GDALGetDataTypeSizeBytes`. -/
def GDALGetDataTypeSizeBytes (t : GDALDataType) : Nat :=
  match t with
  | GDALDataType.GDT_Byte => 1
  | GDALDataType.GDT_UInt16 => 2
  | GDALDataType.GDT_Int16 => 2
  | GDALDataType.GDT_UInt32 => 4
  | GDALDataType.GDT_Int32 => 4
  | GDALDataType.GDT_Float32 => 4
  | GDALDataType.GDT_Float64 => 8

/-- A call into the raster library, or an allocation or release of one of its
objects, made by `warpMap`. -/
inductive NativeOp where
  | computeGDALDatasetMeta (zone : Nat)
  | generateMemoryDataset
  | GDALGetProjectionRef
  | importFromEPSG (epsg : Int)
  | exportToWkt
  | GDALCreateGenImgProjTransformer
  | GDALSuggestedWarpOutput
  | GDALDestroyGenImgProjTransformer
  | Create (cols rows channels : Int) (datatype : GDALDataType)
  | GDALSetProjection
  | GDALSetGeoTransform
  | CPLFree
  | CSLSetNameValue (name value : String)
  | GDALCreateWarpOptions
  | InitializeWarping
  | ChunkAndWarpImage
  | GetRasterXSize
  | GetRasterYSize
  | GetRasterCount
  | GetRasterBand (i : Int)
  | GetRasterDataType
  | RasterIO_Read (i : Int)
  | GDALDestroyWarpOptions
  | delete_meta
  | GetGeoTransform
  | GDALClose
deriving DecidableEq, Repr

/-- What the libraries answer during one call of `warpMap`: the pixel type
`meta->datatype` that `computeGDALDatasetMeta` derives from the layer, the
geotransform and the size that `GDALSuggestedWarpOutput` writes into
`geoinfo_target`, `warped_cols` and `warped_rows`, whether the conditions of
the `CPLAssert` lines hold (handles not null, no error code), and what
`RasterIO` reads from band `i`. -/
structure GdalReplies (D : Type) where
  meta_datatype : GDALDataType
  geoinfo_target : Fin 6 → D
  warped_cols : Int
  warped_rows : Int
  asserted : Bool
  RasterIO_Read : Int → List ℚ

/-- The function `cv::merge` on single matrices of one size: the channels are
interleaved; it rejects an empty list of matrices. -/
def cv_merge (mv : List CvMat) : Option CvMat :=
  match mv with
  | [] => none
  | m :: _ =>
    some { rows := m.rows, cols := m.cols, channels := (mv.map CvMat.channels).sum,
           data := (List.transpose (mv.map CvMat.data)).flatten }

/-- How a call of `warpMap` ends: the grid map returned or the failure, and
the native calls made, in order. -/
structure WarpOutcome (D : Type) where
  result : Except WarpError (CvGridMap D)
  calls : List NativeOp

/-- Steps 2 to 4 of `warpMap`, as far as the native calls go: the calls made
between the validity check and the readback of the bands. -/
def warpCalls {D : Type} (self : GdalWarper) (lib : GdalReplies D) (data : CvMat)
    (zone : Nat) : List NativeOp :=
  [ NativeOp.computeGDALDatasetMeta zone,
    NativeOp.generateMemoryDataset,
    NativeOp.GDALGetProjectionRef,
    NativeOp.importFromEPSG self._epsg_target,
    NativeOp.exportToWkt,
    NativeOp.GDALCreateGenImgProjTransformer,
    NativeOp.GDALSuggestedWarpOutput,
    NativeOp.GDALDestroyGenImgProjTransformer,
    NativeOp.Create lib.warped_cols lib.warped_rows data.channels lib.meta_datatype,
    NativeOp.GDALSetProjection,
    NativeOp.GDALSetGeoTransform,
    NativeOp.CPLFree,
    NativeOp.CSLSetNameValue "INIT_DEST" "NO_DATA",
    NativeOp.CSLSetNameValue "NUM_THREADS" "ALL_CPUS",
    NativeOp.GDALCreateWarpOptions,
    NativeOp.GDALGetProjectionRef,
    NativeOp.GDALGetProjectionRef,
    NativeOp.GDALCreateGenImgProjTransformer,
    NativeOp.InitializeWarping,
    NativeOp.GetRasterXSize,
    NativeOp.GetRasterYSize,
    NativeOp.ChunkAndWarpImage,
    NativeOp.GetRasterXSize,
    NativeOp.GetRasterYSize,
    NativeOp.GetRasterCount ]

/-- The method `GdalWarper::warpMap`.

The `CPLAssert` lines do nothing (one of them names the undeclared `hDstDS`,
so the file compiles only where `CPLAssert` expands to nothing); when one of
their conditions does not hold the call goes on with what is not valid, and
the embedding ends it with `assertion_violated` (where exactly is not
modelled).

The destination dataset is the one the call creates at line 96 and writes at
lines 100 and 101: its size is `warped_cols` by `warped_rows`, it has
`data.channels()` bands of pixel type `meta->datatype`, and the geotransform
read back at line 176 is `geoinfo_target`, the one written at line 101.

Each band is read into `bckVar`, a matrix of one byte per pixel, with the pixel
type of the band as buffer type (line 156): with a pixel type of more than one
byte the read writes past the end of the buffer. -/
def warpMap {D : Type} [DoubleOps D] (self : GdalWarper) (lib : GdalReplies D)
    (map : CvGridMap D) (zone : Nat) : WarpOutcome D :=
  -- Step 1: Check validity
  if self._epsg_target = 0 then
    { result := Except.error
        (WarpError.runtime_error "Error warping map: Target EPSG was not set!"),
      calls := [] }
  else
    let layer_names := map.getAllLayerNames
    if layer_names.length > 1 then
      { result := Except.error
          (WarpError.invalid_argument
            "Error warping map: There is more than one layer in the map. This is currently not supported."),
        calls := [] }
    else
      -- Step 2: cv::Mat data = map[layer_names[0]];
      match layer_names[0]? with
      | none => { result := Except.error WarpError.layer_names_out_of_bounds, calls := [] }
      | some name =>
        match map.layer name with
        | none => { result := Except.error WarpError.no_such_layer, calls := [] }
        | some data =>
          -- Steps 2 to 4
          let calls := warpCalls self lib data zone
          if lib.asserted = false then
            { result := Except.error WarpError.assertion_violated, calls := calls }
          else
            let raster_cols := lib.warped_cols
            let raster_rows := lib.warped_rows
            let raster_channels := data.channels
            let bands : List Int :=
              (List.range raster_channels.toNat).map (fun n => (n : Int) + 1)
            -- cv::Mat bckVar(raster_rows, raster_cols, CV_8UC1);
            if bands ≠ [] ∧ (raster_rows < 0 ∨ raster_cols < 0) then
              { result := Except.error WarpError.negative_size, calls := calls }
            -- poBand->RasterIO(..., bckVar.data, ..., poBand->GetRasterDataType(), 0, 0);
            else if bands ≠ [] ∧ 1 < GDALGetDataTypeSizeBytes lib.meta_datatype ∧
                0 < raster_rows * raster_cols then
              { result := Except.error WarpError.RasterIO_overrun,
                calls := calls ++
                  [NativeOp.GetRasterBand 1, NativeOp.GetRasterDataType,
                    NativeOp.RasterIO_Read 1] }
            else
              let warped_data_split : List CvMat :=
                bands.map (fun i =>
                  { rows := raster_rows, cols := raster_cols, channels := 1,
                    data := lib.RasterIO_Read i })
              let calls := calls ++ bands.flatMap (fun i =>
                [NativeOp.GetRasterBand i, NativeOp.GetRasterDataType,
                  NativeOp.RasterIO_Read i])
              match cv_merge warped_data_split with
              | none => { result := Except.error WarpError.merge_of_nothing, calls := calls }
              | some warped_data =>
                let calls := calls ++
                  [NativeOp.GDALDestroyGenImgProjTransformer,
                    NativeOp.GDALDestroyWarpOptions, NativeOp.delete_meta]
                -- Step 5: Compute output
                let warped_geoinfo := lib.geoinfo_target
                let calls := calls ++ [NativeOp.GetGeoTransform]
                let warped_resolution := warped_geoinfo 1
                let warped_roi : Rect2d D :=
                  { x := warped_geoinfo 0,
                    y := DoubleOps.sub (warped_geoinfo 3)
                      (DoubleOps.mul (DoubleOps.ofInt warped_data.rows) warped_resolution),
                    width := DoubleOps.sub
                      (DoubleOps.mul (DoubleOps.ofInt warped_data.cols) warped_resolution)
                      warped_resolution,
                    height := DoubleOps.sub
                      (DoubleOps.mul (DoubleOps.ofInt warped_data.rows) warped_resolution)
                      warped_resolution }
                let output := CvGridMap.construct warped_roi warped_resolution
                let output := output.add "data" warped_data
                { result := Except.ok output,
                  calls := calls ++ [NativeOp.GDALClose, NativeOp.GDALClose] }

/-! ## Example values -/

/-- A frame that carries no pose and no surface points yet. -/
def freshFrame : Frame :=
  { image := { rows := 1, cols := 1, channels := 1, data := [0] }, timestamp := 0,
    resize_factor := 1, visual_pose := none, surface_points := CvMat.default }

/-- A non-empty pose guess. -/
def someGuess : CvMat :=
  { rows := 1, cols := 1, channels := 1, data := [1] }

/-- A library answer with native pose `pose` and `k` keyframes in the vector,
`k` being the count reported. -/
def repliesWith {N : Type} (pose : N) (k : Nat) : VslamReplies N :=
  { feed_monocular_frame := pose, draw_frame := CvMat.default,
    keyframes := List.replicate k { landmarks := [] }, get_keyframes := k }

/-- A one-pixel image of one channel. -/
def onePixel : CvMat :=
  { rows := 1, cols := 1, channels := 1, data := [7] }

/-- The region of interest of the example maps. -/
def unitRoi : Rect2d ℚ :=
  { x := 0, y := 0, width := 1, height := 1 }

/-- A grid map without any layer, as the constructor makes it. -/
def noLayerMap : CvGridMap ℚ :=
  CvGridMap.construct unitRoi 1

/-- A grid map with one layer. -/
def oneLayerMap : CvGridMap ℚ :=
  noLayerMap.add "elevation" onePixel

/-- A grid map with two layers. -/
def twoLayerMap : CvGridMap ℚ :=
  oneLayerMap.add "color" onePixel

/-- A warper whose target is EPSG 4326. -/
def wgs84Warper : GdalWarper :=
  GdalWarper.construct.setTargetEPSG 4326

/-- Library answers for a layer of bytes and a destination of 3 columns and 2
rows, with the given geotransform, every call succeeding. -/
def gdalRepliesWith (g : Fin 6 → ℚ) : GdalReplies ℚ :=
  { meta_datatype := GDALDataType.GDT_Byte, geoinfo_target := g, warped_cols := 3,
    warped_rows := 2, asserted := true, RasterIO_Read := fun _ => [1, 2, 3, 4, 5, 6] }

/-- A north-up geotransform: origin `(10, 20)`, pixel width `2`, pixel height
`-2`. -/
def northUp : Fin 6 → ℚ :=
  ![10, 2, 0, 20, 0, -2]

/-! # Lemmas -/

/-! ## Lemmas on the pose functions -/

theorem rotationBlock_invertPose (P : Mat44) :
    rotationBlock (invertPose P) = (rotationBlock P).transpose := by
  funext i j
  have hi : (Fin.castSucc i : Fin 4).val < 3 := by simp
  have hj : (Fin.castSucc j : Fin 4).val < 3 := by simp
  have hj3 : ¬ (Fin.castSucc j : Fin 4).val = 3 := by omega
  simp only [rotationBlock, invertPose, copyToTranslation, copyToRotation, hi, hj, hj3,
    and_self, and_false, dite_true, dite_false, Matrix.transpose_apply]
  rfl

theorem translationCol_invertPose (P : Mat44) :
    translationCol (invertPose P) =
      (-(rotationBlock P).transpose).mulVec (translationCol P) := by
  funext i
  have hi : (Fin.castSucc i : Fin 4).val < 3 := by simp
  have h3 : (3 : Fin 4).val = 3 := rfl
  simp only [translationCol, invertPose, copyToTranslation, hi, h3, and_self, dite_true]
  rfl

theorem lastRow_invertPose (P : Mat44) (j : Fin 4) :
    invertPose P 3 j = (1 : Mat44) 3 j := by
  have h3 : ¬ (3 : Fin 4).val < 3 := by decide
  simp only [invertPose, copyToTranslation, copyToRotation, h3, false_and, dite_false]

theorem fin4_eq_three (i : Fin 4) (h : ¬ i.val < 3) : i = 3 := by
  apply Fin.ext
  have h3 : (3 : Fin 4).val = 3 := rfl
  have := i.isLt
  omega

theorem mat44_ext (A B : Mat44) (hR : rotationBlock A = rotationBlock B)
    (ht : translationCol A = translationCol B) (hl : ∀ j, A 3 j = B 3 j) : A = B := by
  funext i j
  by_cases hi : i.val < 3
  · by_cases hj : j.val < 3
    · exact congrFun (congrFun hR ⟨i.val, hi⟩) ⟨j.val, hj⟩
    · have hj3 : j = 3 := fin4_eq_three j hj
      subst hj3
      exact congrFun ht ⟨i.val, hi⟩
  · have hi3 : i = 3 := fin4_eq_three i hi
    subst hi3
    exact hl j

theorem invertPose_invertPose_of_rigid (P : Mat44) (h : IsRigid P) :
    invertPose (invertPose P) = P := by
  obtain ⟨hR, h0, h1, h2, h3⟩ := h
  have hR' : rotationBlock P * (rotationBlock P).transpose = 1 :=
    (Matrix.mul_eq_one_comm).mp hR
  apply mat44_ext
  · rw [rotationBlock_invertPose, rotationBlock_invertPose, Matrix.transpose_transpose]
  · rw [translationCol_invertPose, rotationBlock_invertPose, translationCol_invertPose,
      Matrix.transpose_transpose, Matrix.mulVec_mulVec, neg_mul_neg, hR',
      Matrix.one_mulVec]
  · intro j
    rw [lastRow_invertPose]
    fin_cases j
    · exact h0.symm
    · exact h1.symm
    · exact h2.symm
    · exact h3.symm

theorem rotationBlock_one : rotationBlock (1 : Mat44) = 1 := by
  funext i j
  simp [rotationBlock, Matrix.one_apply]

theorem translationCol_one : translationCol (1 : Mat44) = 0 := by
  funext i
  have h : (Fin.castSucc i : Fin 4) ≠ 3 := by
    intro h
    have := congrArg Fin.val h
    simp at this
    have h3 : (3 : Fin 4).val = 3 := rfl
    omega
  simp [translationCol, Matrix.one_apply, h]

theorem invertPose_one : invertPose (1 : Mat44) = 1 := by
  apply mat44_ext
  · rw [rotationBlock_invertPose, rotationBlock_one, Matrix.transpose_one]
  · rw [translationCol_invertPose, translationCol_one, Matrix.mulVec_zero]
  · intro j
    rw [lastRow_invertPose]

theorem quarterTurn_isRigid : IsRigid quarterTurn := by
  refine ⟨?_, ?_, ?_, ?_, ?_⟩
  · have hR : rotationBlock quarterTurn = !![0, -1, 0; 1, 0, 0; 0, 0, 1] := by
      funext i j
      fin_cases i <;> fin_cases j <;> rfl
    rw [hR]
    funext i j
    fin_cases i <;> fin_cases j <;>
      simp [Matrix.mul_apply, Fin.sum_univ_three, Matrix.transpose_apply, Matrix.one_apply,
        Matrix.vecHead, Matrix.vecTail]
  all_goals rfl

/-! ## Lemmas on the tracking adapter -/

theorem getTrackedMapPoints_has_no_value (self : OpenVslam) (pts : CvMat) :
    getTrackedMapPoints self ≠ Except.ok pts := by
  unfold getTrackedMapPoints
  cases self._last_keyframe with
  | none => exact fun h => Except.noConfusion h
  | some kf => exact fun h => Except.noConfusion h

theorem track_of_nonempty_guess {N : Type} (self : OpenVslam) (lib : VslamReplies N)
    (mat_cv : Mat44) (frame : Frame) (guess : CvMat) (hg : guess.empty = false) :
    track self lib mat_cv frame guess =
      { result := Except.ok State.LOST,
        self := { self with _last_drawn_frame := lib.draw_frame },
        frame := { frame with resize_factor := self._resizing },
        calls := [VslamCall.draw_frame] } := by
  simp [track, hg]

theorem track_result_of_empty_guess {N : Type} (self : OpenVslam) (lib : VslamReplies N)
    (mat_cv : Mat44) (frame : Frame) (guess : CvMat) (hg : guess.empty = true) :
    (track self lib mat_cv frame guess).result =
      (match lib.keyframes.getLast? with
       | none => Except.error TrackFault.back_of_empty_vector
       | some _ => Except.error TrackFault.missing_return) := by
  simp only [track, hg, if_true]
  cases lib.keyframes.getLast? with
  | none => rfl
  | some kf => simp [getTrackedMapPoints]

theorem track_not_lost_of_empty_guess {N : Type} (self : OpenVslam) (lib : VslamReplies N)
    (mat_cv : Mat44) (frame : Frame) (guess : CvMat) (hg : guess.empty = true) (s : State) :
    (track self lib mat_cv frame guess).result ≠ Except.ok s := by
  rw [track_result_of_empty_guess self lib mat_cv frame guess hg]
  cases lib.keyframes.getLast? with
  | none => exact fun h => Except.noConfusion h
  | some kf => exact fun h => Except.noConfusion h

/-- The comparison of lines 120 to 134, taken by itself, is the state machine
of the specification. -/
theorem checkState_table (c k : Nat) :
    (c = 0 ∧ k > 0 → checkState c k = (State.INITIALIZED, k)) ∧
    (¬ (c = 0 ∧ k > 0) → k ≠ c → checkState c k = (State.KEYFRAME_INSERT, k)) ∧
    (¬ (c = 0 ∧ k > 0) → k = c → checkState c k = (State.FRAME_INSERT, c)) := by
  refine ⟨?_, ?_, ?_⟩
  · intro h
    simp [checkState, h]
  · intro h hne
    simp [checkState, h, hne]
  · intro h heq
    simp [checkState, h, heq]

/-- The comparison of lines 120 to 134, taken by itself, leaves the counter
equal to the reported count, and gives `INITIALIZED` only from counter 0. -/
theorem checkState_counter (c k : Nat) :
    (checkState c k).2 = k ∧ ((checkState c k).1 = State.INITIALIZED → c = 0) := by
  unfold checkState
  by_cases h1 : c = 0 ∧ k > 0
  · simp [h1]
  · by_cases h2 : k ≠ c
    · simp [h1, h2]
    · have h3 : k = c := not_not.mp h2
      rw [if_neg h1, if_neg h2]
      exact ⟨h3.symm, fun h => State.noConfusion h⟩

/-! ## Lemmas on the warper -/

theorem range_toNat_of_pos (n : Int) (h : 1 ≤ n) :
    ∃ k, List.range n.toNat = 0 :: (List.range k).map Nat.succ := by
  obtain ⟨k, hk⟩ : ∃ k, n.toNat = k + 1 := ⟨n.toNat - 1, by omega⟩
  exact ⟨k, by rw [hk, List.range_succ_eq_map]⟩

theorem layer_of_single {D : Type} (roi : Rect2d D) (resolution : D) (name : String)
    (data : CvMat) :
    CvGridMap.layer { roi := roi, resolution := resolution, layers := [(name, data)] } name =
      some data := by
  simp [CvGridMap.layer]

/-! # The claims -/

/-- C1, the code at the failing input: on a new adapter (counter 0), without
pose guess, when the library has no keyframe yet (count 0, empty vector), the
call does not return `FRAME_INSERT`: it runs `back()` on the empty vector and
has no result. When the library reports one keyframe the call does not return
`INITIALIZED` either: it ends in `getTrackedMapPoints`, which has no `return`.
Whatever the adapter, the frame and the answers of the library, a call without
pose guess returns no state. -/
theorem track_without_guess_returns_no_state {N : Type} (self : OpenVslam)
    (lib : VslamReplies N) (mat_cv : Mat44) (frame : Frame) :
    (track (OpenVslam.construct 1) (repliesWith (1 : Mat44) 0) 0 freshFrame
        CvMat.default).result = Except.error TrackFault.back_of_empty_vector ∧
    (track (OpenVslam.construct 1) (repliesWith (1 : Mat44) 1) 0 freshFrame
        CvMat.default).result = Except.error TrackFault.missing_return ∧
    (∀ s, (track self lib mat_cv frame CvMat.default).result ≠ Except.ok s) :=
  ⟨rfl, rfl, track_not_lost_of_empty_guess self lib mat_cv frame CvMat.default rfl⟩

/-- C3: a warper whose target EPSG is 0, the value the constructor gives it,
fails in `warpMap` with `std::runtime_error` (the spec's
`InvalidConfiguration`) for every grid map and zone: no grid map is returned
and no native call is made. -/
theorem warpMap_epsg_unset {D : Type} [DoubleOps D] (self : GdalWarper)
    (lib : GdalReplies D) (map : CvGridMap D) (zone : Nat) (h : self._epsg_target = 0) :
    GdalWarper.construct._epsg_target = 0 ∧
    (warpMap self lib map zone).result =
      Except.error (WarpError.runtime_error "Error warping map: Target EPSG was not set!") ∧
    (∀ out, (warpMap self lib map zone).result ≠ Except.ok out) ∧
    (warpMap self lib map zone).calls = [] := by
  have hw : warpMap self lib map zone =
      { result := Except.error
          (WarpError.runtime_error "Error warping map: Target EPSG was not set!"),
        calls := [] } := by
    simp [warpMap, h]
  rw [hw]
  exact ⟨rfl, rfl, fun out hout => Except.noConfusion hout, rfl⟩

/-- Witness of C3: the warper as constructed, on a map with one layer. -/
theorem warpMap_epsg_unset_witness :
    GdalWarper.construct._epsg_target = 0 ∧
    (warpMap GdalWarper.construct (gdalRepliesWith northUp) oneLayerMap 32).result =
      Except.error (WarpError.runtime_error "Error warping map: Target EPSG was not set!") :=
  ⟨rfl, (warpMap_epsg_unset GdalWarper.construct (gdalRepliesWith northUp) oneLayerMap 32
    rfl).2.1⟩

/-- C4 as stated fails: a map with two layers given to a warper whose target
EPSG is unset fails with `std::runtime_error` (`InvalidConfiguration`), not
with `std::invalid_argument` (`UnsupportedInput`). -/
theorem warpMap_two_layers_epsg_unset :
    twoLayerMap.getAllLayerNames.length = 2 ∧
    (warpMap GdalWarper.construct (gdalRepliesWith northUp) twoLayerMap 32).result =
      Except.error (WarpError.runtime_error "Error warping map: Target EPSG was not set!") ∧
    ¬ ∃ what, (warpMap GdalWarper.construct (gdalRepliesWith northUp) twoLayerMap 32).result =
      Except.error (WarpError.invalid_argument what) := by
  refine ⟨rfl, rfl, ?_⟩
  rintro ⟨what, h⟩
  have h2 : (warpMap GdalWarper.construct (gdalRepliesWith northUp) twoLayerMap 32).result =
      Except.error (WarpError.runtime_error "Error warping map: Target EPSG was not set!") :=
    rfl
  rw [h2] at h
  cases h

/-- C4, amended: when the target EPSG is set (non-zero), every grid map with
more than one data layer makes `warpMap` fail with `std::invalid_argument`
(the spec's `UnsupportedInput`), and no native call or allocation is made. -/
theorem warpMap_more_than_one_layer {D : Type} [DoubleOps D] (self : GdalWarper)
    (lib : GdalReplies D) (map : CvGridMap D) (zone : Nat) (hepsg : self._epsg_target ≠ 0)
    (hlayers : map.getAllLayerNames.length > 1) :
    (warpMap self lib map zone).result =
      Except.error (WarpError.invalid_argument
        "Error warping map: There is more than one layer in the map. This is currently not supported.") ∧
    (warpMap self lib map zone).calls = [] := by
  simp [warpMap, hepsg, hlayers]

/-- Witness of the amended C4: a map with two layers and target EPSG 4326. -/
theorem warpMap_more_than_one_layer_witness :
    wgs84Warper._epsg_target ≠ 0 ∧ twoLayerMap.getAllLayerNames.length > 1 ∧
    (warpMap wgs84Warper (gdalRepliesWith northUp) twoLayerMap 32).result =
      Except.error (WarpError.invalid_argument
        "Error warping map: There is more than one layer in the map. This is currently not supported.") ∧
    (warpMap wgs84Warper (gdalRepliesWith northUp) twoLayerMap 32).calls = [] :=
  ⟨by decide, by decide,
    warpMap_more_than_one_layer wgs84Warper (gdalRepliesWith northUp) twoLayerMap 32
      (by decide) (by decide)⟩

/-- C5: for every `4 × 4` matrix `P`, `invertPose P` has rotation block the
transpose of that of `P`, translation `-(Rᵀ) t` and last row `(0, 0, 0, 1)`;
the identity is its own inverse; and for every valid rigid transform `P`
(orthonormal rotation block, last row `(0, 0, 0, 1)`),
`invertPose (invertPose P) = P`, over exact arithmetic. -/
theorem invertPose_involutive (P : Mat44) (hP : IsRigid P) :
    rotationBlock (invertPose P) = (rotationBlock P).transpose ∧
    translationCol (invertPose P) =
      -((rotationBlock P).transpose.mulVec (translationCol P)) ∧
    invertPose P 3 0 = 0 ∧ invertPose P 3 1 = 0 ∧ invertPose P 3 2 = 0 ∧
    invertPose P 3 3 = 1 ∧
    invertPose (1 : Mat44) = 1 ∧
    invertPose (invertPose P) = P := by
  refine ⟨rotationBlock_invertPose P, ?_, ?_, ?_, ?_, ?_, invertPose_one,
    invertPose_invertPose_of_rigid P hP⟩
  · rw [translationCol_invertPose, Matrix.neg_mulVec]
  · rw [lastRow_invertPose]; rfl
  · rw [lastRow_invertPose]; rfl
  · rw [lastRow_invertPose]; rfl
  · rw [lastRow_invertPose]; rfl

/-- Witness of C5: the quarter turn about the third axis with translation
`(1, 2, 3)`. -/
theorem invertPose_involutive_witness :
    IsRigid quarterTurn ∧ invertPose (invertPose quarterTurn) = quarterTurn :=
  ⟨quarterTurn_isRigid, (invertPose_involutive quarterTurn quarterTurn_isRigid).2.2.2.2.2.2.2⟩

/-- C6: when the call reaches its end (target EPSG set, one layer, the
conditions of the `CPLAssert` lines hold, the layer has at least one channel
and pixels of one byte, the suggested size is not negative), `warpMap` returns
a grid map whose single layer `"data"` is the warped image, with `r` rows and
`c` columns; its resolution is the pixel width `g 1` of the destination
geotransform, which is the magnitude of the pixel width because the
geotransform suggested by the raster library has a positive pixel width; its
region of interest has origin `(g 0, g 3 - r * resolution)`, width
`c * resolution - resolution` and height `r * resolution - resolution`, the
products and differences being those of the type `double`. The magnitude is
any function `mag` that leaves positive values as they are. -/
theorem warpMap_output_geometry {D : Type} [DoubleOps D] (mag : D → D)
    (positive : D → Prop) (hmag : ∀ x, positive x → mag x = x)
    (self : GdalWarper) (lib : GdalReplies D) (map : CvGridMap D) (zone : Nat)
    (name : String) (data : CvMat)
    (hepsg : self._epsg_target ≠ 0) (hlayers : map.layers = [(name, data)])
    (hasserted : lib.asserted = true)
    (hbyte : lib.meta_datatype = GDALDataType.GDT_Byte) (hchannels : 1 ≤ data.channels)
    (hrows : 0 ≤ lib.warped_rows) (hcols : 0 ≤ lib.warped_cols)
    (hwidth : positive (lib.geoinfo_target 1)) :
    ∃ out img, (warpMap self lib map zone).result = Except.ok out ∧
      out.layers = [("data", img)] ∧
      img.rows = lib.warped_rows ∧ img.cols = lib.warped_cols ∧
      out.resolution = mag (lib.geoinfo_target 1) ∧
      out.roi.x = lib.geoinfo_target 0 ∧
      out.roi.y = DoubleOps.sub (lib.geoinfo_target 3)
        (DoubleOps.mul (DoubleOps.ofInt img.rows) out.resolution) ∧
      out.roi.width = DoubleOps.sub
        (DoubleOps.mul (DoubleOps.ofInt img.cols) out.resolution) out.resolution ∧
      out.roi.height = DoubleOps.sub
        (DoubleOps.mul (DoubleOps.ofInt img.rows) out.resolution) out.resolution := by
  obtain ⟨k, hk⟩ := range_toNat_of_pos data.channels hchannels
  obtain ⟨roi, resolution, layers⟩ := map
  simp only at hlayers
  subst hlayers
  have hlayer := layer_of_single roi resolution name data
  have hr : ¬ lib.warped_rows < 0 := not_lt.mpr hrows
  have hc : ¬ lib.warped_cols < 0 := not_lt.mpr hcols
  have hsize : ¬ 1 < GDALGetDataTypeSizeBytes GDALDataType.GDT_Byte := by decide
  simp only [warpMap, hepsg, if_false, CvGridMap.getAllLayerNames, List.map_cons, List.map_nil,
    List.length_singleton, gt_iff_lt, lt_self_iff_false, List.getElem?_cons_zero, hlayer, hk,
    hasserted, hbyte, hr, hc, hsize, or_self, and_false, false_and, Bool.true_eq_false,
    cv_merge, CvGridMap.add, CvGridMap.construct, List.nil_append]
  exact ⟨_, _, rfl, rfl, rfl, rfl, (hmag _ hwidth).symm, rfl, rfl, rfl, rfl⟩

/-- Witness of C6: a one-layer map of bytes warped to EPSG 4326, the
destination being 3 columns by 2 rows with origin `(10, 20)` and pixel width
`2`, in exact arithmetic with the absolute value as magnitude. -/
theorem warpMap_output_geometry_witness :
    (∀ x : ℚ, 0 < x → |x| = x) ∧
    wgs84Warper._epsg_target ≠ 0 ∧ oneLayerMap.layers = [("elevation", onePixel)] ∧
    (gdalRepliesWith northUp).asserted = true ∧
    (gdalRepliesWith northUp).meta_datatype = GDALDataType.GDT_Byte ∧
    1 ≤ onePixel.channels ∧
    0 ≤ (gdalRepliesWith northUp).warped_rows ∧ 0 ≤ (gdalRepliesWith northUp).warped_cols ∧
    0 < (gdalRepliesWith northUp).geoinfo_target 1 ∧
    ∃ out img, (warpMap wgs84Warper (gdalRepliesWith northUp) oneLayerMap 32).result =
        Except.ok out ∧
      out.layers = [("data", img)] ∧
      img.rows = (gdalRepliesWith northUp).warped_rows ∧
      img.cols = (gdalRepliesWith northUp).warped_cols ∧
      out.resolution = |(gdalRepliesWith northUp).geoinfo_target 1| ∧
      out.roi.x = (gdalRepliesWith northUp).geoinfo_target 0 ∧
      out.roi.y = DoubleOps.sub ((gdalRepliesWith northUp).geoinfo_target 3)
        (DoubleOps.mul (DoubleOps.ofInt img.rows) out.resolution) ∧
      out.roi.width = DoubleOps.sub
        (DoubleOps.mul (DoubleOps.ofInt img.cols) out.resolution) out.resolution ∧
      out.roi.height = DoubleOps.sub
        (DoubleOps.mul (DoubleOps.ofInt img.rows) out.resolution) out.resolution :=
  ⟨fun _ hx => abs_of_pos hx, by decide, rfl, rfl, rfl, by decide, by decide, by decide,
    by norm_num [gdalRepliesWith, northUp],
    warpMap_output_geometry (fun x => |x|) (fun x => 0 < x) (fun _ hx => abs_of_pos hx)
      wgs84Warper (gdalRepliesWith northUp) oneLayerMap 32 "elevation" onePixel
      (by decide) rfl rfl rfl (by decide) (by decide) (by decide)
      (by norm_num [gdalRepliesWith, northUp])⟩

/-- C7 as stated fails: on a new adapter, with a library that has one
keyframe, `track` with a non-empty guess returns `LOST` and leaves the frame
without pose, while `track` with the empty guess does not return `LOST` and
sets the pose of the frame. -/
theorem track_guess_changes_outcome :
    someGuess.empty = false ∧ CvMat.default.empty = true ∧
    (track (OpenVslam.construct 1) (repliesWith (1 : Mat44) 1) 0 freshFrame
        someGuess).result = Except.ok State.LOST ∧
    (track (OpenVslam.construct 1) (repliesWith (1 : Mat44) 1) 0 freshFrame
        someGuess).result ≠
      (track (OpenVslam.construct 1) (repliesWith (1 : Mat44) 1) 0 freshFrame
        CvMat.default).result ∧
    (track (OpenVslam.construct 1) (repliesWith (1 : Mat44) 1) 0 freshFrame
        someGuess).frame.visual_pose ≠
      (track (OpenVslam.construct 1) (repliesWith (1 : Mat44) 1) 0 freshFrame
        CvMat.default).frame.visual_pose := by
  refine ⟨rfl, rfl, rfl, ?_, ?_⟩
  · show Except.ok State.LOST ≠ Except.error TrackFault.missing_return
    exact fun h => Except.noConfusion h
  · show (none : Option Mat34) ≠ some _
    exact fun h => Option.noConfusion h

/-- C7, amended: for every adapter, frame and answer of the library, `track`
with a non-empty guess does not feed the frame to the tracking library (its
only call is `draw_frame`) and returns `LOST`; the adapter afterwards is the
adapter before with `_last_drawn_frame` set to the image `draw_frame` returned,
and the frame afterwards is the frame before with its resize factor set to
`_resizing`: nothing else changes, in particular not the keyframe counter, the
pose and the surface points. -/
theorem track_nonempty_guess_lost {N : Type} (self : OpenVslam) (lib : VslamReplies N)
    (mat_cv : Mat44) (frame : Frame) (T_c2w_initial : CvMat)
    (hguess : T_c2w_initial.empty = false) :
    (track self lib mat_cv frame T_c2w_initial).result = Except.ok State.LOST ∧
    (track self lib mat_cv frame T_c2w_initial).calls = [VslamCall.draw_frame] ∧
    (track self lib mat_cv frame T_c2w_initial).self =
      { self with _last_drawn_frame := lib.draw_frame } ∧
    (track self lib mat_cv frame T_c2w_initial).frame =
      { frame with resize_factor := self._resizing } ∧
    (track self lib mat_cv frame T_c2w_initial).self._nrof_keyframes =
      self._nrof_keyframes ∧
    (track self lib mat_cv frame T_c2w_initial).frame.visual_pose = frame.visual_pose ∧
    (track self lib mat_cv frame T_c2w_initial).frame.surface_points =
      frame.surface_points := by
  rw [track_of_nonempty_guess self lib mat_cv frame T_c2w_initial hguess]
  exact ⟨rfl, rfl, rfl, rfl, rfl, rfl, rfl⟩

/-- Witness of the amended C7: a new adapter and a one-entry guess. -/
theorem track_nonempty_guess_lost_witness :
    someGuess.empty = false ∧
    (track (OpenVslam.construct 1) (repliesWith (1 : Mat44) 1) 0 freshFrame
      someGuess).result = Except.ok State.LOST :=
  ⟨rfl, (track_nonempty_guess_lost (OpenVslam.construct 1) (repliesWith (1 : Mat44) 1) 0
    freshFrame someGuess rfl).1⟩

/-- C8, the code at the failing input: `convertToCv` returns the allocated
matrix as it is, whatever the native matrix; with an allocation that holds
zeros and the identity as native matrix, the entry at row 0 and column 0 of
the result is `0` and that of the native matrix is `1`; and whatever the
allocation holds, some native matrix differs from the result. -/
theorem convertToCv_drops_entries :
    (∀ (mat_cv M : Mat44), convertToCv mat_cv M = mat_cv) ∧
    convertToCv (0 : Mat44) (1 : Mat44) 0 0 = 0 ∧ (1 : Mat44) 0 0 = 1 ∧
    convertToCv (0 : Mat44) (1 : Mat44) 0 0 ≠ (1 : Mat44) 0 0 ∧
    (∀ mat_cv : Mat44, ∃ M : Mat44, convertToCv mat_cv M 0 0 ≠ M 0 0) := by
  refine ⟨fun _ _ => rfl, rfl, by simp, by simp [convertToCv], ?_⟩
  intro mat_cv
  refine ⟨fun _ _ => mat_cv 0 0 + 1, ?_⟩
  simp [convertToCv]

/-- C10, the code at the failing input: a grid map with no layer, given to a
warper whose target EPSG is 4326, passes both validity checks (the EPSG is not
0 and the number of layers is not greater than 1), and the read of
`layer_names[0]` that follows is out of bounds. -/
theorem warpMap_no_layer_out_of_bounds (lib : GdalReplies ℚ) (zone : Nat) :
    wgs84Warper._epsg_target ≠ 0 ∧
    ¬ noLayerMap.getAllLayerNames.length > 1 ∧
    noLayerMap.getAllLayerNames.length ≠ 1 ∧
    noLayerMap.getAllLayerNames[0]? = none ∧
    (warpMap wgs84Warper lib noLayerMap zone).result =
      Except.error WarpError.layer_names_out_of_bounds :=
  ⟨by decide, by decide, by decide, rfl, rfl⟩

end realm
